import Mathlib

/-!
Verification development for the RippleTruth scoring pipeline.

The Python source is shallowly embedded as follows.

Text processing is modelled over `List Char` with structural recursion
(`String` appears only at API boundaries, via `String.data` / `String.mk`),
mirroring Python `str` operations: `str.split()`, `str.split(".")`,
`str.strip()`, `str.lower()`, substring membership `w in t`, and
`str.count(sub)`.

Machine floats are modelled as exact rationals (`ℚ`): every IEEE float the
program manipulates is a rational number, and the formulas of the scoring
pipeline are rational-valued except where a square root appears.  The
genuinely external numeric kernels are abstracted as parameters gathered in
`ExternalKernels`:
  - `sim`   : sklearn TF-IDF cosine similarity of two sentences (used by
              `_semantic_stability`; the Python `try/except` fallback `0.3`
              is just one possible value of this oracle),
  - `std`   : `np.std` (population standard deviation, the square root of
              `pyVariancePop`),
  - `sqrtQ` : the real square root as computed by `statistics.stdev` /
              `statistics.variance ** 0.5` in `psi_quant.py`,
  - `fetch` : `requests`-based URL fetching (`url_engine.fetch_url_text`),
  - `showQ` : Python float formatting inside f-strings.
Where a claim depends on the actual value of a square root, the relation
`s ≥ 0 ∧ s^2 = variance` over `ℝ` is used in the theorem statement instead.

Python `round(x, n)` is modelled by `pyRound` with Mathlib `round`
(round-half-up; Python uses round-half-even on binary floats, a difference
only at exact decimal-half ties, which no claim here touches).
-/

/-! ## Text utilities (Python str operations over List Char) -/

/-- Python `str.lower()` for an ASCII character. -/
def lowerChar (c : Char) : Char :=
  if 'A' ≤ c ∧ c ≤ 'Z' then Char.ofNat (c.toNat + 32) else c

/-- Python `str.lower()`. -/
def toLowerL (cs : List Char) : List Char := cs.map lowerChar

/-- Splits at every character satisfying `p`, keeping empty pieces
(the behaviour of Python `re.split` on a single-character class, and of
`str.split(".")` for `p = (· == '.')`). -/
def splitCharsAux (p : Char → Bool) (cur : List Char) : List Char → List (List Char)
  | [] => [cur.reverse]
  | c :: rest =>
    if p c then cur.reverse :: splitCharsAux p [] rest
    else splitCharsAux p (c :: cur) rest

/-- Python `str.split()` (split on whitespace runs, dropping empty pieces). -/
def pySplitWhitespace (cs : List Char) : List (List Char) :=
  (splitCharsAux (fun c => c.isWhitespace) [] cs).filter (· ≠ [])

/-- Python `text.lower().split()`, the tokenization shared by
`_intent_strength`, `_emotional_volatility` and `_narrative_harmonics`. -/
def pyTokens (text : String) : List (List Char) :=
  pySplitWhitespace (toLowerL text.data)

/-- Python `str.strip()`. -/
def trimL (cs : List Char) : List Char :=
  ((cs.dropWhile Char.isWhitespace).reverse.dropWhile Char.isWhitespace).reverse

/-- Does `pre` occur at the head of `cs`? -/
def startsWithL : List Char → List Char → Bool
  | [], _ => true
  | _ :: _, [] => false
  | a :: as, b :: bs => a == b && startsWithL as bs

/-- Python substring membership `needle in hay`. -/
def hasSubL (needle : List Char) : List Char → Bool
  | [] => startsWithL needle []
  | c :: rest => startsWithL needle (c :: rest) || hasSubL needle rest

/-- Python `hay.count(needle)`: non-overlapping occurrence count, scanning
left to right. -/
def countOccL (needle : List Char) : List Char → ℕ
  | [] => 0
  | c :: rest =>
    if startsWithL needle (c :: rest) ∧ needle ≠ [] then
      1 + countOccL needle (List.drop (needle.length - 1) rest)
    else
      countOccL needle rest
termination_by l => l.length
decreasing_by
  all_goals simp [List.length_drop]
  omega

/-- A `\w` regex character (ASCII fragment, all inputs considered are ASCII). -/
def wordChar (c : Char) : Bool := c.isAlphanum || c == '_'

/-- Python `re.findall(r"\b\w+\b", text.lower())`: maximal word-character
runs of the lower-cased text (`PsiQuant._tokenize`, and the case-insensitive
`\b(...)\b` verb search of `FactStackEngine.extract_claims`). -/
def psiTokenize (cs : List Char) : List (List Char) :=
  (splitCharsAux (fun c => !wordChar c) [] (toLowerL cs)).filter (· ≠ [])

/-- Membership count: how many of `tokens` belong to the word list `ws`
(Python `sum(1 for t in tokens if t in ws)`). -/
def countTokensIn (ws : List (List Char)) (tokens : List (List Char)) : ℕ :=
  (tokens.filter (fun t => ws.contains t)).length

/-- Splitter of `FactStackEngine.extract_claims`:
`re.split(r'(?<=[.!?])\s+', text)` — split at each maximal whitespace run
whose first character is preceded by `.`, `!` or `?`.  The Boolean is true
while consuming the whitespace run of a separator. -/
def fsSplitAux : Bool → List Char → List Char → List (List Char)
  | _, cur, [] => [cur.reverse]
  | true, cur, c :: rest =>
    if c.isWhitespace then fsSplitAux true cur rest
    else fsSplitAux false (c :: cur) rest
  | false, cur, c :: rest =>
    if c.isWhitespace ∧ (cur.headD ' ') ∈ ['.', '!', '?'] then
      cur.reverse :: fsSplitAux true [] rest
    else fsSplitAux false (c :: cur) rest

/-! ## Rational utilities -/

/-- `np.clip(x, lo, hi)`. -/
def clampQ (lo hi x : ℚ) : ℚ := min hi (max lo x)

/-- `np.mean` / `statistics.mean` (exact; division by zero yields `0` in ℚ,
a case every caller guards against). -/
def pyMean (l : List ℚ) : ℚ := l.sum / l.length

/-- The square of `np.std(l)`: the population variance
`mean((x - mean l)^2)`. -/
def pyVariancePop (l : List ℚ) : ℚ :=
  pyMean (l.map (fun x => (x - pyMean l) ^ 2))

/-- `statistics.variance` (sample variance, denominator `n - 1`); callers
guard `n ≥ 2`. -/
def sampleVariance (l : List ℚ) : ℚ :=
  (l.map (fun x => (x - pyMean l) ^ 2)).sum / ((l.length : ℚ) - 1)

/-- Python `round(x, n)` (see header note on tie behaviour). -/
def pyRound (n : ℕ) (x : ℚ) : ℚ :=
  ((round (x * 10 ^ n) : ℤ) : ℚ) / (10 : ℚ) ^ n

/-- The external numeric kernels of the program, see the header comment. -/
structure ExternalKernels where
  sim : List Char → List Char → ℚ
  std : List ℚ → ℚ
  sqrtQ : ℚ → ℚ
  fetch : String → String
  showQ : ℚ → String

/-! ## Feature extractor (`core/intention_math.py`, lines 21–109) -/

/-- The directive-word list of `_intent_strength`. -/
def strong_words : List (List Char) :=
  ["must", "will", "never", "always", "ordered",
   "demand", "require", "refuse", "announce",
   "warn", "threaten", "vow", "declare"].map String.data

/-- `_intent_strength` (lines 21–33). -/
def intent_strength (text : String) : ℚ :=
  if pyTokens text = [] then 0
  else clampQ 0 1
    ((countTokensIn strong_words (pyTokens text) : ℚ) / ((pyTokens text).length : ℚ) * 4)

/-- The qualifying sentences of `_semantic_stability`:
`[s.strip() for s in text.split(".") if len(s.strip()) > 4]`. -/
def pySentences (text : String) : List (List Char) :=
  (((splitCharsAux (fun c => c == '.') [] text.data).map trimL).filter (fun s => 4 < s.length))

/-- The consecutive-pair similarities of `_semantic_stability` (lines 47–53);
`sim` is the external cosine-similarity kernel. -/
def consecSims (sim : List Char → List Char → ℚ) : List (List Char) → List ℚ
  | a :: b :: rest => sim a b :: consecSims sim (b :: rest)
  | _ => []

/-- `_semantic_stability` (lines 39–56). -/
def semantic_stability (sim : List Char → List Char → ℚ) (text : String) : ℚ :=
  if (pySentences text).length < 2 then 0.5
  else clampQ 0 1
    (if consecSims sim (pySentences text) = [] then 0.3
     else pyMean (consecSims sim (pySentences text)))

/-- The positive word list of `_emotional_vector`. -/
def emo_positive : List (List Char) :=
  ["good", "great", "love", "trust", "hope"].map String.data

/-- The negative word list of `_emotional_vector`. -/
def emo_negative : List (List Char) :=
  ["bad", "terrible", "hate", "fear", "danger"].map String.data

/-- Positive substring hits of `_emotional_vector` (`w in text.lower()`). -/
def posHits (text : String) : ℕ :=
  (emo_positive.filter (fun w => hasSubL w (toLowerL text.data))).length

/-- Negative substring hits of `_emotional_vector`. -/
def negHits (text : String) : ℕ :=
  (emo_negative.filter (fun w => hasSubL w (toLowerL text.data))).length

/-- `_emotional_vector` (lines 62–72). -/
def emotional_vector (text : String) : ℚ :=
  clampQ 0 1
    ((((posHits text : ℚ) - (negHits text : ℚ)) / max 1 ((posHits text : ℚ) + (negHits text : ℚ)) + 1) / 2)

/-- Per-token emotional intensity of `_emotional_volatility` (lines 84–90). -/
def intensityOf (t : List Char) : ℚ :=
  if (["kill", "attack", "threat", "outrage"].map String.data).contains t then 1.0
  else if (["calm", "discuss", "consider"].map String.data).contains t then 0.1
  else 0.4

/-- The per-token intensity list `emo_values` of `_emotional_volatility`. -/
def emoValues (text : String) : List ℚ :=
  (pyTokens text).map intensityOf

/-- `_emotional_volatility` (lines 78–92); `std` is the external `np.std`
kernel (the square root of `pyVariancePop`). -/
def emotional_volatility (std : List ℚ → ℚ) (text : String) : ℚ :=
  if (pyTokens text).length < 4 then 0.1
  else clampQ 0 1 (std (emoValues text))

/-- `_narrative_harmonics` (lines 98–109). -/
def narrative_harmonics (text : String) : ℚ :=
  if pyTokens text = [] then 0
  else clampQ 0 1
    ((((pyTokens text).length : ℚ) - ((pyTokens text).eraseDups.length : ℚ))
      / ((pyTokens text).length : ℚ) * 3)

/-! ## Intention scorer (`core/intention_math.py`, lines 115–213) -/

/-- `compute_fils` (lines 115–121). -/
def compute_fils (intent stability emotion : ℚ) : ℚ :=
  clampQ 0 1 (0.6 * intent + 0.25 * stability + 0.15 * emotion)

/-- `compute_ucip` (lines 127–133). -/
def compute_ucip (fils stability harmonics : ℚ) : ℚ :=
  clampQ 0 1 (0.5 * fils + 0.3 * stability + 0.2 * harmonics)

/-- `compute_ttcf` (lines 139–148). -/
def compute_ttcf (volatility lowband : ℚ) : ℚ :=
  clampQ 0 1 (0.7 * volatility + 0.3 * lowband)

/-- `compute_drift` (lines 154–160). -/
def compute_drift (fils ucip stability_inverse : ℚ) : ℚ :=
  clampQ 0 1 ((|fils - ucip| + stability_inverse) / 2)

/-- `compute_ripplescore` (lines 166–171). -/
def compute_ripplescore (fils ucip drift : ℚ) : ℚ :=
  clampQ 0 1 (0.45 * fils + 0.45 * ucip - 0.25 * drift)

/-- The five raw narrative signals extracted by `run_intention_math`
(lines 185–189). -/
structure FeatureVector where
  intent_strength : ℚ
  stability : ℚ
  emotion : ℚ
  volatility : ℚ
  harmonics : ℚ
deriving DecidableEq

/-- The five derived metrics. -/
structure IntentionMetrics where
  FILS : ℚ
  UCIP : ℚ
  TTCF : ℚ
  Drift : ℚ
  RippleScore : ℚ
deriving DecidableEq

/-- The sequential metric chain of `run_intention_math` (lines 192–196),
before the 4-decimal rounding applied to the returned dict. -/
def intention_chain (f : FeatureVector) : IntentionMetrics :=
  let fils := compute_fils f.intent_strength f.stability f.emotion
  let ucip := compute_ucip fils f.stability f.harmonics
  let ttcf := compute_ttcf f.volatility (f.volatility * 0.2)
  let drift := compute_drift fils ucip (1 - ttcf)
  let ripplescore := compute_ripplescore fils ucip drift
  ⟨fils, ucip, ttcf, drift, ripplescore⟩

/-- Modelled from the spec (§4.3): the five formulas written out exactly as
the specification states them, to be compared with `intention_chain`. -/
def spec_metric_chain (f : FeatureVector) : IntentionMetrics :=
  let FILS := clampQ 0 1 (0.6 * f.intent_strength + 0.25 * f.stability + 0.15 * f.emotion)
  let UCIP := clampQ 0 1 (0.5 * FILS + 0.3 * f.stability + 0.2 * f.harmonics)
  let TTCF := clampQ 0 1 (0.7 * f.volatility + 0.3 * (f.volatility * 0.2))
  let Drift := clampQ 0 1 ((|FILS - UCIP| + (1 - TTCF)) / 2)
  let RippleScore := clampQ 0 1 (0.45 * FILS + 0.45 * UCIP - 0.25 * Drift)
  ⟨FILS, UCIP, TTCF, Drift, RippleScore⟩

/-- `run_intention_math` raw feature extraction (lines 185–189). -/
def extract_features (ext : ExternalKernels) (text : String) : FeatureVector :=
  ⟨intent_strength text,
   semantic_stability ext.sim text,
   emotional_vector text,
   emotional_volatility ext.std text,
   narrative_harmonics text⟩

/-- The dict returned by `run_intention_math` (lines 198–213): the five
metrics rounded to 4 decimals, plus the raw debug signals. -/
structure IntentionOutput where
  FILS : ℚ
  UCIP : ℚ
  TTCF : ℚ
  Drift : ℚ
  RippleScore : ℚ
  intent_strength : ℚ
  stability : ℚ
  emotion : ℚ
  volatility : ℚ
  harmonics : ℚ
deriving DecidableEq

/-- `run_intention_math` (lines 177–213). -/
def run_intention_math (ext : ExternalKernels) (text : String) : IntentionOutput :=
  let f := extract_features ext text
  let m := intention_chain f
  ⟨pyRound 4 m.FILS, pyRound 4 m.UCIP, pyRound 4 m.TTCF, pyRound 4 m.Drift,
   pyRound 4 m.RippleScore,
   f.intent_strength, f.stability, f.emotion, f.volatility, f.harmonics⟩

/-! ## Narrative classifier (`core/narrative_classifier.py`) -/

/-- Does the text contain any of the keywords as a substring
(`any(k in text for k in ks)`)? -/
def hasAnyKeyword (t : List Char) (ks : List (List Char)) : Bool :=
  ks.any (fun k => hasSubL k t)

/-- `detect_topic` (lines 43–59). -/
def detect_topic (t : List Char) : String :=
  if hasAnyKeyword t (["immigration", "border", "migrant"].map String.data) then "Immigration"
  else if hasAnyKeyword t (["economy", "inflation", "jobs", "market"].map String.data) then "Economy"
  else if hasAnyKeyword t (["election", "vote", "campaign", "ballot"].map String.data) then "Elections"
  else if hasAnyKeyword t (["crime", "violence", "police"].map String.data) then "Crime"
  else if hasAnyKeyword t (["war", "military", "strike", "attack"].map String.data) then "Foreign Policy"
  else "General"

/-- The positive word list of `detect_polarity` (line 66). -/
def polarity_positive : List (List Char) :=
  ["good", "hope", "success", "progress", "peace"].map String.data

/-- The negative word list of `detect_polarity` (line 67). -/
def polarity_negative : List (List Char) :=
  ["bad", "fear", "danger", "threat", "corrupt", "fraud"].map String.data

/-- `detect_polarity` (lines 65–76). -/
def detect_polarity (t : List Char) : String :=
  let pos := (polarity_positive.filter (fun w => hasSubL w t)).length
  let neg := (polarity_negative.filter (fun w => hasSubL w t)).length
  if neg < pos then "Positive"
  else if pos < neg then "Negative"
  else "Neutral"

/-- `detect_emotional_tone` (lines 82–89). -/
def detect_emotional_tone (t : List Char) : String :=
  if hasAnyKeyword t (["panic", "fear", "urgent", "chaos", "anger"].map String.data) then
    "High Emotional Load"
  else if hasAnyKeyword t (["concern", "worry", "uncertain"].map String.data) then
    "Moderate Emotional Load"
  else "Low Emotional Load"

/-- `detect_structure` (lines 95–113). -/
def detect_structure (t : List Char) : String :=
  if hasSubL "because".data t || hasSubL "due to".data t then "Claim with Reason"
  else if hasSubL "therefore".data t || hasSubL "thus".data t then "Argument / Conclusion"
  else if hasSubL "report".data t || hasSubL "sources say".data t then "Reported Information"
  else if hasSubL "!".data t then "Emphatic / Emotional Statement"
  else "General Statement"

/-- The dict returned by `analyze_narrative` (`struct` models the Python key
`"structure"`, a Lean keyword). -/
structure NarrativeProfile where
  topic : String
  polarity : String
  tone : String
  struct : String
deriving DecidableEq

/-- `analyze_narrative` (lines 4–37): classifies `text.lower().strip()`. -/
def analyze_narrative (text : String) : NarrativeProfile :=
  let cleaned := trimL (toLowerL text.data)
  ⟨detect_topic cleaned, detect_polarity cleaned,
   detect_emotional_tone cleaned, detect_structure cleaned⟩

/-! ## Traceback engine (`core/traceback_engine.py`) -/

/-- `ACTOR_PRIORS` (lines 12–17). -/
def ACTOR_PRIORS : List (String × ℚ) :=
  [("Political Actor", 0.32),
   ("Media / Journalist", 0.22),
   ("Citizen / Civilian", 0.28),
   ("Institution / Organization", 0.18)]

/-- `_mutation_likelihood` (lines 23–25). -/
def mutation_likelihood (stability volatility : ℚ) : ℚ :=
  clampQ 0 1 ((1 - stability) * 0.6 + volatility * 0.4)

/-- `_amplification_pattern` (lines 31–37). -/
def amplification_pattern (ucip ttcf : ℚ) : ℚ :=
  clampQ 0 1 ((ucip * 0.5 - ttcf * 0.5 + 1) / 2)

/-- One row of the `_score_actor` reweighting product (lines 56–62). -/
def actorScore (base iw sw hw rw intent stability harmonics ripplescore : ℚ) : ℚ :=
  base * (1 + intent * iw) * (1 + stability * sw) * (1 + harmonics * hw)
    * (1 + ripplescore * rw)

/-- `_score_actor` (lines 43–65): multiplicative reweighting of the priors,
then renormalization.  Weight columns: `intent_wt = [1.0, 0.6, 0.4, 0.2]`,
`stability_wt = [0.9, 1.0, 0.6, 0.8]`, `harmonic_wt = [1.0, 1.2, 0.3, 0.8]`,
`ripple_wt = [1.1, 1.0, 0.5, 0.9]`. -/
def score_actor (intent stability harmonics ripplescore : ℚ) : List (String × ℚ) :=
  let s1 := actorScore 0.32 1.0 0.9 1.0 1.1 intent stability harmonics ripplescore
  let s2 := actorScore 0.22 0.6 1.0 1.2 1.0 intent stability harmonics ripplescore
  let s3 := actorScore 0.28 0.4 0.6 0.3 0.5 intent stability harmonics ripplescore
  let s4 := actorScore 0.18 0.2 0.8 0.8 0.9 intent stability harmonics ripplescore
  let total := s1 + s2 + s3 + s4
  [("Political Actor", s1 / total),
   ("Media / Journalist", s2 / total),
   ("Citizen / Civilian", s3 / total),
   ("Institution / Organization", s4 / total)]

/-- The RippleTruthIndex computation inlined in `run_traceback`
(lines 131–138): a weighted blend scaled to 0–100 and clipped to `[1, 99]`
by `np.clip(rti * 100, 1, 99)`. -/
def rippletruth_index (stability ucip ttcf ripplescore drift : ℚ) : ℚ :=
  clampQ 1 99
    ((0.35 * stability + 0.25 * ucip + 0.15 * (1 - ttcf) + 0.15 * ripplescore
      + 0.10 * (1 - drift)) * 100)

/-- Python `max(actor_probs, key=actor_probs.get)`: the first key attaining
the maximal value (later ties do not replace). -/
def dominantActor : List (String × ℚ) → String
  | [] => ""
  | p :: rest => (rest.foldl (fun best q => if best.2 < q.2 then q else best) p).1

/-- The dict returned by `run_traceback`. -/
structure TracebackResult where
  actor_probabilities : List (String × ℚ)
  amplification_pattern : ℚ
  mutation_likelihood : ℚ
  RippleTruthIndex : ℚ
  interpretation : String
deriving DecidableEq

/-- The interpretation f-string of `run_traceback` (lines 145–150); float
rendering is the external `showQ` kernel. -/
def traceback_interpretation (ext : ExternalKernels) (dominant : String)
    (amplification mutation rti : ℚ) : String :=
  "A narrative originating from **" ++ dominant
    ++ "** with an amplification profile of **"
    ++ (if amplification < 0.45 then "Low" else "High")
    ++ " amplification**, and a mutation likelihood of **"
    ++ ext.showQ (pyRound 2 mutation)
    ++ "**, produces a RippleTruth reliability score of **"
    ++ ext.showQ (pyRound 1 rti) ++ "/100**."

/-- `run_traceback` (lines 71–161).  Python tests `if not intention:`, which
is true both when the argument is `None` and when it is an empty dict; both
degenerate cases are modelled by `none`. -/
def run_traceback (ext : ExternalKernels) (text : String)
    (narrative : NarrativeProfile) (intention : Option IntentionOutput) :
    TracebackResult :=
  match intention with
  | none =>
    ⟨[], 0, 0, 0, "Intention signals missing — traceback skipped."⟩
  | some i =>
    let actor_probs := score_actor i.intent_strength i.stability i.harmonics i.RippleScore
    let mutation := mutation_likelihood i.stability i.volatility
    let amplification := amplification_pattern i.UCIP i.TTCF
    let rti := rippletruth_index i.stability i.UCIP i.TTCF i.RippleScore i.Drift
    ⟨actor_probs, amplification, mutation, rti,
     traceback_interpretation ext (dominantActor actor_probs) amplification mutation rti⟩

/-! ## Psi-Quant engine (`core/narrative_engine/psi_quant.py`) -/

/-- The emotional word list of `PsiQuant._emotionality` (lines 50–54). -/
def psi_emotional_words : List (List Char) :=
  ["outrage", "corrupt", "evil", "lie", "destroy",
   "fraud", "attack", "stolen", "hate", "traitor",
   "fight", "chaos", "collapse", "disaster"].map String.data

/-- `PsiQuant._emotionality` (lines 49–60). -/
def psi_emotionality (text : String) : ℚ :=
  min 1 ((countTokensIn psi_emotional_words (psiTokenize text.data) : ℚ)
    / max 1 (((psiTokenize text.data).length : ℚ) / 20))

/-- `PsiQuant._assertion_level` (lines 65–77). -/
def psi_assertion_level (text : String) : ℚ :=
  let strong := countTokensIn (["will", "must", "cannot", "always", "never"].map String.data)
    (psiTokenize text.data)
  let weak := countTokensIn (["might", "could", "possibly", "perhaps"].map String.data)
    (psiTokenize text.data)
  max 0 (min 1 (((strong : ℚ) - (weak : ℚ) * 0.5 + 3) / 6))

/-- The sentence fragments `re.split(r"[.!?]", text)`. -/
def psiFragments (text : String) : List (List Char) :=
  splitCharsAux (fun c => c == '.' || c == '!' || c == '?') [] text.data

/-- `PsiQuant._linguistic_chaos` (lines 82–95); `statistics.stdev` is the
square root of `sampleVariance`, taken by the external `sqrtQ` kernel (its
`StatisticsError` branch is unreachable because `len ≥ 2` is guarded). -/
def psi_linguistic_chaos (ext : ExternalKernels) (text : String) : ℚ :=
  let lengths := ((psiFragments text).filter (fun f => trimL f ≠ [])).map
    (fun f => ((pySplitWhitespace (trimL f)).length : ℚ))
  if lengths.length < 2 then 0.1
  else max 0 (min 1 (ext.sqrtQ (sampleVariance lengths) / max 1 (pyMean lengths)))

/-- The directional term list of `PsiQuant._intent_strength` (lines 101–104). -/
def psi_directional_terms : List (List Char) :=
  ["should", "must", "need to", "urge", "call for",
   "demand", "insist", "push", "drive", "force"].map String.data

/-- `PsiQuant._intent_strength` (lines 100–111): substring occurrence counts
over the lower-cased text. -/
def psi_intent_strength (text : String) : ℚ :=
  min 1 (((psi_directional_terms.map
    (fun term => countOccL term (toLowerL text.data))).sum : ℚ) / 5)

/-- `PsiQuant._coherence` (lines 116–135); `variance ** 0.5` is the external
`sqrtQ` kernel (the `StatisticsError` branch is unreachable, `len ≥ 2`). -/
def psi_coherence (ext : ExternalKernels) (text : String) : ℚ :=
  let sentences := ((psiFragments text).map trimL).filter (· ≠ [])
  if sentences.length < 2 then 0.5
  else
    let lengths := sentences.map (fun s => ((pySplitWhitespace s).length : ℚ))
    if lengths = [] then 0.5
    else max 0 (min 1 (1 / (1 + ext.sqrtQ (sampleVariance lengths))))

/-- `PsiQuant.compute` fused score with the weight table of lines 32–38,
reduced to the scalar `psi_score` returned by the `compute_psiquant` wrapper
(lines 179–186). -/
def compute_psiquant (ext : ExternalKernels) (text : String) : ℚ :=
  pyRound 2
    ((psi_emotionality text * 0.22
      + psi_assertion_level text * 0.20
      + psi_linguistic_chaos ext text * 0.18
      + psi_intent_strength text * 0.20
      + psi_coherence ext text * 0.20) * 100)

/-! ## Fact-Stack engine (`core/narrative_engine/fact_stack.py`) -/

/-- The verb alternation of `extract_claims`
(`\b(is|are|was|were|has|have|had|will|did|does|said|claims?)\b`, case
insensitive; `claims?` matches `claim` and `claims`). -/
def fs_verbs : List (List Char) :=
  ["is", "are", "was", "were", "has", "have", "had", "will", "did", "does",
   "said", "claim", "claims"].map String.data

/-- `FactStackEngine.extract_claims` (lines 33–42). -/
def extract_claims (text : String) : List String :=
  ((fsSplitAux false [] text.data).filter (fun s =>
      5 ≤ (pySplitWhitespace s).length
      ∧ ¬ hasSubL ['?'] s
      ∧ (psiTokenize s).any (fun t => fs_verbs.contains t))).map
    (fun s => String.mk (trimL s))

/-- `FactStackEngine.normalize_claims` (lines 47–48). -/
def normalize_claims (claims : List String) : List String :=
  claims.map (fun c => String.mk (trimL (toLowerL c.data)))

/-- The `opposite_pairs` table of `detect_contradictions` (lines 56–63). -/
def opposite_pairs : List (List Char × List Char) :=
  [("did not".data, "did".data),
   ("was not".data, "was".data),
   ("were not".data, "were".data),
   ("false".data, "true".data),
   ("never".data, "always".data),
   ("none".data, "all".data)]

/-- `FactStackEngine.detect_contradictions` (lines 53–73). -/
def detect_contradictions (claims : List String) : List String :=
  claims.bind (fun a => claims.bind (fun b =>
    if a = b then []
    else opposite_pairs.filterMap (fun p =>
      if hasSubL p.1 a.data ∧ hasSubL p.2 b.data then
        some ("Conflict between: \x27" ++ a ++ "\x27 AND \x27" ++ b ++ "\x27")
      else none)))

/-- The `extreme_words` table of `detect_exaggeration` (lines 81–85). -/
def extreme_words : List (List Char) :=
  ["everyone", "no one", "always", "never",
   "completely", "entirely", "absolutely",
   "proven", "undeniable", "irrefutable"].map String.data

/-- `FactStackEngine.detect_exaggeration` (lines 78–91). -/
def detect_exaggeration (claims : List String) : List String :=
  claims.filter (fun c => extreme_words.any (fun w => hasSubL w c.data))

/-- `FactStackEngine.compute_stability` (lines 96–105). -/
def compute_stability (claims contradictions exaggerations : List String) : ℚ :=
  if claims = [] then 50
  else max 0 (min 100
    (90 - (contradictions.length : ℚ) * 12 - (exaggerations.length : ℚ) * 5))

/-- The dict returned by `FactStackEngine.analyze` (lines 16–28). -/
structure FactStackOutput where
  claims : List String
  contradictions : List String
  exaggerations : List String
  stability_score : ℚ
deriving DecidableEq

/-- `FactStackEngine.analyze` (lines 16–28). -/
def fact_stack_analyze (text : String) : FactStackOutput :=
  let normalized := normalize_claims (extract_claims text)
  let contradictions := detect_contradictions normalized
  let exaggerations := detect_exaggeration normalized
  ⟨normalized, contradictions, exaggerations,
   compute_stability normalized contradictions exaggerations⟩

/-- `build_fact_stack` (lines 114–142): the readable stack consumed by the
narrative engine; number rendering is the external `showQ` kernel. -/
def build_fact_stack (ext : ExternalKernels) (text : String) : List String :=
  let r := fact_stack_analyze text
  (r.claims.map (fun c => "Claim: " ++ c))
    ++ (r.contradictions.map (fun c => "Contradiction: " ++ c))
    ++ (r.exaggerations.map (fun e => "Exaggeration: " ++ e))
    ++ ["Stability Score: " ++ ext.showQ r.stability_score]

/-! ## Narrative engine (`core/narrative_engine/`) -/

/-- `get_narrative_tier` (`narrative_tiers.py`): a constant stub. -/
def get_narrative_tier (x : String) : String := "tier-unknown"

/-- The placeholder dict of `score_world_corpus` (`world_corpus.py`). -/
structure WorldCorpusScore where
  similarity_score : ℚ
  geopolitical_alignment : String
  information_density : ℚ
  realism_index : ℚ
  notes : String
deriving DecidableEq

/-- `score_world_corpus` (`world_corpus.py`, lines 16–29). -/
def score_world_corpus (x : String) : WorldCorpusScore :=
  ⟨0.0, "unknown", 0.0, 0.0, "World corpus module not yet implemented."⟩

/-- The dict returned by `NarrativeEngine.analyze` (lines 81–88). -/
structure NarrativeEngineOutput where
  tier : String
  fact_stack : List String
  psiquant : ℚ
  corpus_alignment : WorldCorpusScore
  openai_summary : Option String
  use_openai : Bool
deriving DecidableEq

/-- `NarrativeEngine.analyze` (lines 20–88) as invoked by the pipeline:
`NarrativeEngine()` has `use_openai=False`, so the OpenAI block is skipped
and `openai_summary` is `None`. -/
def narrative_engine_analyze (ext : ExternalKernels) (text : String) :
    NarrativeEngineOutput :=
  ⟨get_narrative_tier text, build_fact_stack ext text, compute_psiquant ext text,
   score_world_corpus text, none, false⟩

/-! ## Interpretation engine (`core/interpretation_engine.py`) -/

/-- `_generate_legacy_interpretation` (lines 113–209); float rendering is
the external `showQ` kernel. -/
def legacy_interpretation (ext : ExternalKernels) (narrative : NarrativeProfile)
    (intention : IntentionOutput) (trace : TracebackResult) : String :=
  let top_actor :=
    if trace.actor_probabilities = [] then "Unknown"
    else dominantActor trace.actor_probabilities
  let narrative_summary :=
    "The text presents a **" ++ String.mk (toLowerL narrative.topic.data)
      ++ "** narrative with a **" ++ String.mk (toLowerL narrative.polarity.data)
      ++ " polarity**, delivered in a **" ++ String.mk (toLowerL narrative.tone.data)
      ++ " tone**, and structured as a **" ++ String.mk (toLowerL narrative.struct.data)
      ++ "**. "
  let fils_desc :=
    if 0.65 < intention.FILS then "strong emotional propulsion"
    else if 0.40 < intention.FILS then "moderate emotional activation"
    else "low emotional propulsion"
  let ucip_desc :=
    if 0.55 < intention.UCIP then "high internal coherence"
    else if 0.30 < intention.UCIP then "moderate coherence"
    else "low coherence"
  let ttc_desc :=
    if 0.50 < intention.TTCF then "high chaos/distortion"
    else if 0.25 < intention.TTCF then "moderate chaos"
    else "low chaos"
  let drift_desc :=
    if 0.40 < intention.Drift then "large intention drift"
    else if 0.20 < intention.Drift then "moderate drift"
    else "minimal drift"
  let rs_desc :=
    if 0.60 < intention.RippleScore then "a strong RippleScore"
    else if 0.35 < intention.RippleScore then "a moderate RippleScore"
    else "a weak RippleScore"
  let intention_summary :=
    "Intention-field metrics show " ++ fils_desc ++ ", paired with " ++ ucip_desc
      ++ "; the signal carries " ++ ttc_desc ++ ". Drift analysis shows "
      ++ drift_desc ++ ", ending with " ++ rs_desc ++ ". "
  let amp_desc :=
    if 0.55 < trace.amplification_pattern then "high amplification potential"
    else if 0.30 < trace.amplification_pattern then "moderate amplification"
    else "low amplification"
  let mut_desc :=
    if 0.55 < trace.mutation_likelihood then "high mutation likelihood"
    else if 0.30 < trace.mutation_likelihood then "moderate mutation"
    else "low mutation likelihood"
  let traceback_summary :=
    "Traceback modeling points to **" ++ top_actor
      ++ "** as the most probable origin. The message exhibits " ++ amp_desc
      ++ ", and mutation analysis indicates " ++ mut_desc
      ++ ". The reliability score is **"
      ++ ext.showQ (pyRound 1 trace.RippleTruthIndex) ++ "/100**. "
  narrative_summary ++ intention_summary ++ traceback_summary

/-- The dict returned by `generate_interpretation` in 4-argument mode
(lines 92–106), with the `psi_details` sub-dict flattened. -/
structure InterpretationOutput where
  summary : String
  legacy_interpretation : String
  psi_quant_analysis : String
  psi_quant_score : ℚ
  force_label : String
  emotionality : ℚ
  chaos_factor : ℚ
  coherence : ℚ
  intent_strength : ℚ
  fused_interpretation_paragraph : String
deriving DecidableEq

/-- `generate_interpretation` (lines 7–106) as invoked by the pipeline (the
4th argument is always supplied, so the legacy 3-argument fallback branch is
not taken).  The source reads `narrative_engine_output.get("psi_quant", {})`,
but `NarrativeEngine.analyze` emits the key `"psiquant"`; the lookup
therefore always misses and every psi sub-value takes its `.get` default
`0`, which the model binds directly. -/
def generate_interpretation (ext : ExternalKernels) (narrative : NarrativeProfile)
    (intention : IntentionOutput) (trace : TracebackResult)
    (ne : NarrativeEngineOutput) : InterpretationOutput :=
  let psi_score : ℚ := 0
  let emotionality : ℚ := 0
  let chaos_factor : ℚ := 0
  let coherence : ℚ := 0
  let intent_s : ℚ := 0
  let force_label :=
    if 70 ≤ psi_score then "HIGH"
    else if 40 ≤ psi_score then "MODERATE"
    else "LOW"
  let emotionality_note :=
    if 0.35 < emotionality then "strong emotional propulsion"
    else if 0.15 < emotionality then "moderate emotional coloring"
    else "minimal emotional coloration"
  let chaos_note :=
    if 0.35 < chaos_factor then "high linguistic volatility"
    else if 0.15 < chaos_factor then "moderate variability"
    else "stable linguistic structure"
  let coherence_note :=
    if 0.65 < coherence then "high structural coherence"
    else if 0.35 < coherence then "mixed coherence"
    else "fragmented or uneven structure"
  let intent_note :=
    if 0.35 < intent_s then "strong directive pressure"
    else if 0.10 < intent_s then "mild directive cues"
    else "little directive signaling"
  let legacy_block := legacy_interpretation ext narrative intention trace
  let psi_block :=
    "The text exhibits a **" ++ force_label
      ++ " narrative influence force**, with a Psi-Quant score of **"
      ++ ext.showQ psi_score ++ "**. It demonstrates " ++ emotionality_note
      ++ ", " ++ chaos_note ++ ", and " ++ coherence_note
      ++ ". Directive intent is characterized by " ++ intent_note ++ ". "
  ⟨"Narrative Influence Level: " ++ force_label,
   legacy_block, psi_block, psi_score, force_label,
   emotionality, chaos_factor, coherence, intent_s,
   legacy_block ++ " " ++ psi_block⟩

/-! ## Pipeline (`core/pipeline.py`) -/

/-- `load_input` (lines 16–25): URL mode fetches through the external
`fetch` kernel (`url_engine.fetch_url_text`), TEXT mode passes through. -/
def load_input (ext : ExternalKernels) (input_data input_mode : String) : String :=
  if input_mode = "URL" then ext.fetch input_data else input_data

/-- The bundle returned by `run_rippletruth_pipeline` (lines 111–121).  The
`markdown` field of the source dict is a pure string rendering of these same
components (`utils/report_templates.build_markdown_report`, step 7 of the
pipeline) and is not modelled; no claim concerns its contents. -/
structure PipelineOutput where
  narrative : NarrativeProfile
  intention : IntentionOutput
  traceback : TracebackResult
  narrative_engine : NarrativeEngineOutput
  fact_stack : FactStackOutput
  interpretation : InterpretationOutput
  input_text : String
  input_mode : String
deriving DecidableEq

/-- A pipeline invocation either returns the error-only dict
`{"error": ...}` (lines 46–49) or the full report bundle. -/
inductive PipelineResult where
  | error (msg : String)
  | report (r : PipelineOutput)
deriving DecidableEq

/-- `run_rippletruth_pipeline` (lines 28–121).  The guard is the source's
`if not text or len(text.strip()) < 10`. -/
def run_rippletruth_pipeline (ext : ExternalKernels)
    (input_data : String) (input_mode : String) : PipelineResult :=
  let text := load_input ext input_data input_mode
  if text = "" ∨ (trimL text.data).length < 10 then
    .error "No usable text extracted from input. URL may be invalid or article blocked."
  else
    let narrative := analyze_narrative text
    let intention := run_intention_math ext text
    let trace := run_traceback ext text narrative (some intention)
    let ne := narrative_engine_analyze ext text
    let fs := fact_stack_analyze text
    let interp := generate_interpretation ext narrative intention trace ne
    .report ⟨narrative, intention, trace, ne, fs, interp, text, input_mode⟩

/-- A concrete constant instantiation of the external kernels, used to
evaluate the model at specific inputs. -/
def trivialKernels : ExternalKernels :=
  ⟨fun _ _ => 0, fun _ => 0, fun _ => 0, fun _ => "", fun _ => ""⟩

/-- External kernels whose URL fetch fails: `fetch` returns the sentinel
string of `url_engine.fetch_url_text` line 28. -/
def sentinelKernels : ExternalKernels :=
  ⟨fun _ _ => 0, fun _ => 0, fun _ => 0,
   fun _ => "[No extractable article text found]", fun _ => ""⟩

/-! ## Helper lemmas -/

theorem clampQ01_nonneg (x : ℚ) : 0 ≤ clampQ 0 1 x :=
  le_min (by norm_num) (le_max_left 0 x)

theorem clampQ01_le_one (x : ℚ) : clampQ 0 1 x ≤ 1 :=
  min_le_left 1 (max 0 x)

/-! ## Claim C1 -/

/-- Claim C1: for every FeatureVector with all five fields in [0,1], the
Intention Scorer computes its five metrics as the exact sequential chain
FILS, then UCIP (consuming FILS), then TTCF, then Drift (consuming FILS,
UCIP, TTCF), then RippleScore (consuming FILS, UCIP, Drift), exactly as the
specification's five formulas state. -/
theorem c1_sequential_metric_chain (f : FeatureVector)
    (h : 0 ≤ f.intent_strength ∧ f.intent_strength ≤ 1
      ∧ 0 ≤ f.stability ∧ f.stability ≤ 1
      ∧ 0 ≤ f.emotion ∧ f.emotion ≤ 1
      ∧ 0 ≤ f.volatility ∧ f.volatility ≤ 1
      ∧ 0 ≤ f.harmonics ∧ f.harmonics ≤ 1) :
    intention_chain f = spec_metric_chain f := rfl

/-- Witness for C1 at the concrete feature vector (1/2, 1/2, 1/2, 1/2, 1/2). -/
theorem c1_sequential_metric_chain_witness :
    intention_chain ⟨1/2, 1/2, 1/2, 1/2, 1/2⟩ = spec_metric_chain ⟨1/2, 1/2, 1/2, 1/2, 1/2⟩ :=
  c1_sequential_metric_chain ⟨1/2, 1/2, 1/2, 1/2, 1/2⟩ (by norm_num)

/-! ## Claim C9 -/

/-- Claim C9: RippleScore = clamp(0.45·FILS + 0.45·UCIP − 0.25·Drift, 0, 1),
as a function of its three inputs in [0,1], is monotonically non-decreasing
in FILS and in UCIP when the other two inputs are held fixed. -/
theorem c9_ripplescore_monotone (f f' u u' d : ℚ)
    (hf : 0 ≤ f ∧ f ≤ 1) (hf' : 0 ≤ f' ∧ f' ≤ 1)
    (hu : 0 ≤ u ∧ u ≤ 1) (hu' : 0 ≤ u' ∧ u' ≤ 1)
    (hd : 0 ≤ d ∧ d ≤ 1) (hff : f ≤ f') (huu : u ≤ u') :
    compute_ripplescore f u d ≤ compute_ripplescore f' u d
      ∧ compute_ripplescore f u d ≤ compute_ripplescore f u' d := by
  unfold compute_ripplescore clampQ
  constructor
  · exact min_le_min le_rfl (max_le_max le_rfl (by linarith))
  · exact min_le_min le_rfl (max_le_max le_rfl (by linarith))

/-- Witness for C9 at FILS 0 ≤ 1 and UCIP 0 ≤ 1 with Drift 0. -/
theorem c9_ripplescore_monotone_witness :
    compute_ripplescore 0 0 0 ≤ compute_ripplescore 1 0 0
      ∧ compute_ripplescore 0 0 0 ≤ compute_ripplescore 0 1 0 :=
  c9_ripplescore_monotone 0 1 0 1 0 (by norm_num) (by norm_num) (by norm_num)
    (by norm_num) (by norm_num) (by norm_num) (by norm_num)

/-! ## Claim C7 -/

/-- Claim C7: when the IntentionMetrics argument is absent or empty (Python
`if not intention:`), the Traceback Scorer returns — it does not raise — a
zeroed TracebackResult (empty actor distribution, amplification 0, mutation
0, reliability index 0) whose interpretation is exactly the string
"Intention signals missing — traceback skipped." -/
theorem c7_traceback_missing_metrics (ext : ExternalKernels) (text : String)
    (narrative : NarrativeProfile) :
    run_traceback ext text narrative none =
      ⟨[], 0, 0, 0, "Intention signals missing — traceback skipped."⟩ := rfl

/-! ## Claim C8 -/

/-- Counterexample to claim C8: on "The economy is great and will improve."
the classifier's polarity is "Neutral", not the claimed "Positive" — the
polarity word list of `detect_polarity` does not contain "great" (the word
"great" is a positive keyword only for `_emotional_vector` in
`intention_math.py`), so both polarity keyword counts are zero. -/
theorem c8_counterexample :
    (analyze_narrative "The economy is great and will improve.").polarity = "Neutral"
      ∧ "Neutral" ≠ "Positive" := by
  constructor
  · decide
  · decide

/-- Claim C8 as amended: for the input "The economy is great and will
improve." the Narrative Classifier returns topic=Economy, polarity=Neutral
(zero positive and zero negative polarity keywords), tone=Low Emotional
Load, and structure=General Statement. -/
theorem c8_amended_scenario :
    analyze_narrative "The economy is great and will improve." =
      ⟨"Economy", "Neutral", "Low Emotional Load", "General Statement"⟩ := by
  decide

/-! ## Claim C4 -/

/-- Counterexample to claim C4: at stability=0, UCIP=0, TTCF=1,
RippleScore=0, Drift=1 (all in [0,1]) the raw blend is 0 and
`np.clip(0, 1, 99)` returns exactly 1, so the reliability index is not
strictly greater than 1. -/
theorem c4_counterexample :
    rippletruth_index 0 0 1 0 1 = 1 ∧ ¬ (1 < rippletruth_index 0 0 1 0 1) := by
  norm_num [rippletruth_index, clampQ, min_def, max_def]

/-- Claim C4 as amended: for inputs in [0,1] the reliability index lies in
the closed interval [1, 99] — it is never 0 or 100, but the inclusive
`np.clip(·, 1, 99)` lets it equal exactly 1 or exactly 99. -/
theorem c4_amended_reliability_range (s u t r d : ℚ)
    (hs : 0 ≤ s ∧ s ≤ 1) (hu : 0 ≤ u ∧ u ≤ 1) (ht : 0 ≤ t ∧ t ≤ 1)
    (hr : 0 ≤ r ∧ r ≤ 1) (hd : 0 ≤ d ∧ d ≤ 1) :
    1 ≤ rippletruth_index s u t r d ∧ rippletruth_index s u t r d ≤ 99
      ∧ rippletruth_index s u t r d ≠ 0 ∧ rippletruth_index s u t r d ≠ 100 := by
  have h1 : 1 ≤ rippletruth_index s u t r d :=
    le_min (by norm_num) (le_max_left 1 _)
  have h99 : rippletruth_index s u t r d ≤ 99 := min_le_left 99 _
  refine ⟨h1, h99, ?_, ?_⟩
  · intro h0
    rw [h0] at h1
    linarith
  · intro h100
    rw [h100] at h99
    linarith

/-- Witness for the amended C4 at all-zero inputs. -/
theorem c4_amended_reliability_range_witness :
    1 ≤ rippletruth_index 0 0 0 0 0 ∧ rippletruth_index 0 0 0 0 0 ≤ 99
      ∧ rippletruth_index 0 0 0 0 0 ≠ 0 ∧ rippletruth_index 0 0 0 0 0 ≠ 100 :=
  c4_amended_reliability_range 0 0 0 0 0 (by norm_num) (by norm_num) (by norm_num)
    (by norm_num) (by norm_num)

/-! ## Claim C3 -/

theorem actorScore_pos (base iw sw hw rw i s h r : ℚ)
    (hbase : 0 < base) (hiw : 0 ≤ iw) (hsw : 0 ≤ sw) (hhw : 0 ≤ hw) (hrw : 0 ≤ rw)
    (hi : 0 ≤ i) (hs : 0 ≤ s) (hh : 0 ≤ h) (hr : 0 ≤ r) :
    0 < actorScore base iw sw hw rw i s h r := by
  unfold actorScore
  have f1 : (0:ℚ) < 1 + i * iw := by nlinarith
  have f2 : (0:ℚ) < 1 + s * sw := by nlinarith
  have f3 : (0:ℚ) < 1 + h * hw := by nlinarith
  have f4 : (0:ℚ) < 1 + r * rw := by nlinarith
  exact mul_pos (mul_pos (mul_pos (mul_pos hbase f1) f2) f3) f4

/-- Claim C3: for inputs in [0,1], the actor distribution names exactly the
four fixed actor categories, assigns each a non-negative probability, and
the probabilities sum to exactly 1 (hence certainly to 1.0 within 1e-9);
the fixed prior table itself sums to 1. -/
theorem c3_actor_distribution (i s h r : ℚ)
    (hi : 0 ≤ i ∧ i ≤ 1) (hs : 0 ≤ s ∧ s ≤ 1)
    (hh : 0 ≤ h ∧ h ≤ 1) (hr : 0 ≤ r ∧ r ≤ 1) :
    ((score_actor i s h r).map Prod.snd).sum = 1
      ∧ (∀ p ∈ score_actor i s h r, 0 ≤ p.2)
      ∧ (score_actor i s h r).map Prod.fst =
          ["Political Actor", "Media / Journalist", "Citizen / Civilian",
           "Institution / Organization"]
      ∧ (ACTOR_PRIORS.map Prod.snd).sum = 1 := by
  have h1 : 0 < actorScore 0.32 1.0 0.9 1.0 1.1 i s h r :=
    actorScore_pos _ _ _ _ _ _ _ _ _ (by norm_num) (by norm_num) (by norm_num)
      (by norm_num) (by norm_num) hi.1 hs.1 hh.1 hr.1
  have h2 : 0 < actorScore 0.22 0.6 1.0 1.2 1.0 i s h r :=
    actorScore_pos _ _ _ _ _ _ _ _ _ (by norm_num) (by norm_num) (by norm_num)
      (by norm_num) (by norm_num) hi.1 hs.1 hh.1 hr.1
  have h3 : 0 < actorScore 0.28 0.4 0.6 0.3 0.5 i s h r :=
    actorScore_pos _ _ _ _ _ _ _ _ _ (by norm_num) (by norm_num) (by norm_num)
      (by norm_num) (by norm_num) hi.1 hs.1 hh.1 hr.1
  have h4 : 0 < actorScore 0.18 0.2 0.8 0.8 0.9 i s h r :=
    actorScore_pos _ _ _ _ _ _ _ _ _ (by norm_num) (by norm_num) (by norm_num)
      (by norm_num) (by norm_num) hi.1 hs.1 hh.1 hr.1
  have htot : 0 < actorScore 0.32 1.0 0.9 1.0 1.1 i s h r
      + actorScore 0.22 0.6 1.0 1.2 1.0 i s h r
      + actorScore 0.28 0.4 0.6 0.3 0.5 i s h r
      + actorScore 0.18 0.2 0.8 0.8 0.9 i s h r := by linarith
  have hne : actorScore 0.32 1.0 0.9 1.0 1.1 i s h r
      + actorScore 0.22 0.6 1.0 1.2 1.0 i s h r
      + actorScore 0.28 0.4 0.6 0.3 0.5 i s h r
      + actorScore 0.18 0.2 0.8 0.8 0.9 i s h r ≠ 0 := ne_of_gt htot
  refine ⟨?_, ?_, ?_, ?_⟩
  · simp only [score_actor, List.map_cons, List.map_nil, List.sum_cons, List.sum_nil]
    field_simp
    ring
  · intro p hp
    simp only [score_actor, List.mem_cons, List.not_mem_nil, or_false] at hp
    rcases hp with rfl | rfl | rfl | rfl
    all_goals exact div_nonneg (by linarith) (le_of_lt htot)
  · simp [score_actor]
  · norm_num [ACTOR_PRIORS]

/-- Witness for C3 at inputs (1/2, 1/2, 1/2, 1/2). -/
theorem c3_actor_distribution_witness :
    ((score_actor (1/2) (1/2) (1/2) (1/2)).map Prod.snd).sum = 1
      ∧ (ACTOR_PRIORS.map Prod.snd).sum = 1 :=
  ⟨(c3_actor_distribution (1/2) (1/2) (1/2) (1/2) (by norm_num) (by norm_num)
      (by norm_num) (by norm_num)).1,
   (c3_actor_distribution (1/2) (1/2) (1/2) (1/2) (by norm_num) (by norm_num)
      (by norm_num) (by norm_num)).2.2.2⟩

/-! ## Claim C2 -/

/-- Claim C2: for every input string (empty, single-character, long,
punctuation-only — the functions are total, so every string is covered, for
any value of the external similarity and standard-deviation kernels), each
of the five Feature Extractor outputs lies in [0,1], and the degenerate
inputs take the defined defaults instead of failing: empty token list →
intent_strength 0 and harmonics 0; fewer than 2 qualifying sentences →
stability 0.5; zero positive and negative hits → emotion 0.5; fewer than 4
tokens → volatility 0.1. -/
theorem c2_feature_extractor_total (sim : List Char → List Char → ℚ)
    (std : List ℚ → ℚ) (text : String) :
    (0 ≤ intent_strength text ∧ intent_strength text ≤ 1)
      ∧ (0 ≤ semantic_stability sim text ∧ semantic_stability sim text ≤ 1)
      ∧ (0 ≤ emotional_vector text ∧ emotional_vector text ≤ 1)
      ∧ (0 ≤ emotional_volatility std text ∧ emotional_volatility std text ≤ 1)
      ∧ (0 ≤ narrative_harmonics text ∧ narrative_harmonics text ≤ 1)
      ∧ (pyTokens text = [] → intent_strength text = 0 ∧ narrative_harmonics text = 0)
      ∧ ((pySentences text).length < 2 → semantic_stability sim text = 0.5)
      ∧ (posHits text = 0 ∧ negHits text = 0 → emotional_vector text = 0.5)
      ∧ ((pyTokens text).length < 4 → emotional_volatility std text = 0.1) := by
  have hint : 0 ≤ intent_strength text ∧ intent_strength text ≤ 1 := by
    unfold intent_strength
    split_ifs
    · norm_num
    · exact ⟨clampQ01_nonneg _, clampQ01_le_one _⟩
  have hstab : 0 ≤ semantic_stability sim text ∧ semantic_stability sim text ≤ 1 := by
    unfold semantic_stability
    split_ifs
    · norm_num
    · exact ⟨clampQ01_nonneg _, clampQ01_le_one _⟩
    · exact ⟨clampQ01_nonneg _, clampQ01_le_one _⟩
  have hemo : 0 ≤ emotional_vector text ∧ emotional_vector text ≤ 1 :=
    ⟨clampQ01_nonneg _, clampQ01_le_one _⟩
  have hvol : 0 ≤ emotional_volatility std text ∧ emotional_volatility std text ≤ 1 := by
    unfold emotional_volatility
    split_ifs
    · norm_num
    · exact ⟨clampQ01_nonneg _, clampQ01_le_one _⟩
  have hharm : 0 ≤ narrative_harmonics text ∧ narrative_harmonics text ≤ 1 := by
    unfold narrative_harmonics
    split_ifs
    · norm_num
    · exact ⟨clampQ01_nonneg _, clampQ01_le_one _⟩
  refine ⟨hint, hstab, hemo, hvol, hharm, ?_, ?_, ?_, ?_⟩
  · intro h
    constructor
    · simp [intent_strength, h]
    · simp [narrative_harmonics, h]
  · intro h
    simp [semantic_stability, h]
  · rintro ⟨h1, h2⟩
    simp only [emotional_vector, h1, h2]
    norm_num [clampQ, min_def, max_def]
  · intro h
    simp [emotional_volatility, h]

/-- Witness for C2: the defaults and bounds evaluated at the empty string
with constant external kernels. -/
theorem c2_feature_extractor_total_witness :
    intent_strength "" = 0 ∧ narrative_harmonics "" = 0
      ∧ semantic_stability (fun _ _ => 0) "" = 0.5
      ∧ emotional_vector "" = 0.5
      ∧ emotional_volatility (fun _ => 0) "" = 0.1
      ∧ 0 ≤ intent_strength "" := by
  have h := c2_feature_extractor_total (fun _ _ => 0) (fun _ => 0) ""
  refine ⟨(h.2.2.2.2.2.1 (by decide)).1, (h.2.2.2.2.2.1 (by decide)).2,
    h.2.2.2.2.2.2.1 (by decide), h.2.2.2.2.2.2.2.1 (by decide),
    h.2.2.2.2.2.2.2.2 (by decide), h.1.1⟩

/-! ## Claim C10 -/

theorem emoValues_range (text : String) :
    ∀ x ∈ emoValues text, (0.1 : ℚ) ≤ x ∧ x ≤ 1 := by
  intro x hx
  simp only [emoValues, List.mem_map] at hx
  obtain ⟨tk, _, rfl⟩ := hx
  unfold intensityOf
  split_ifs <;> norm_num

theorem sum_sq_dev (l : List ℚ) (c : ℚ) :
    (l.map (fun x => (x - c) ^ 2)).sum =
      (l.map (fun x => x ^ 2)).sum - 2 * c * l.sum + (l.length : ℚ) * c ^ 2 := by
  induction l with
  | nil => simp
  | cons a l ih =>
    simp only [List.map_cons, List.sum_cons, ih, List.length_cons]
    push_cast
    ring

/-- Popoviciu-style bound: the population variance of a list of values in
[0.1, 1] is at most ((1 − 0.1)/2)² = 0.2025. -/
theorem pyVariancePop_le (l : List ℚ) (hl : ∀ x ∈ l, (0.1 : ℚ) ≤ x ∧ x ≤ 1) :
    pyVariancePop l ≤ 0.2025 := by
  rcases eq_or_ne l [] with rfl | hne
  · norm_num [pyVariancePop, pyMean]
  · have hn : 0 < (l.length : ℚ) :=
      Nat.cast_pos.mpr (List.length_pos.mpr hne)
    have hμ : pyMean l * (l.length : ℚ) = l.sum := by
      unfold pyMean
      field_simp
    have hb : ∀ y ∈ l.map (fun x => (x - 0.55) ^ 2), y ≤ (0.2025 : ℚ) := by
      intro y hy
      simp only [List.mem_map] at hy
      obtain ⟨x, hx, rfl⟩ := hy
      obtain ⟨hx1, hx2⟩ := hl x hx
      nlinarith
    have hT : (l.map (fun x => (x - 0.55) ^ 2)).sum ≤ (l.length : ℚ) * 0.2025 := by
      have h := List.sum_le_card_nsmul (l.map (fun x => (x - 0.55) ^ 2)) 0.2025 hb
      simpa [List.length_map, nsmul_eq_mul, mul_comm] using h
    have hS : (l.map (fun x => (x - pyMean l) ^ 2)).sum ≤
        (l.map (fun x => (x - 0.55) ^ 2)).sum := by
      rw [sum_sq_dev, sum_sq_dev, ← hμ]
      nlinarith [mul_nonneg hn.le (sq_nonneg (pyMean l - 0.55))]
    have hvar : pyVariancePop l = (l.map (fun x => (x - pyMean l) ^ 2)).sum / (l.length : ℚ) := by
      simp [pyVariancePop, pyMean]
    rw [hvar, div_le_iff hn]
    nlinarith [hS, hT]

/-- Claim C10: the volatility feature — the population standard deviation of
per-token intensities drawn from {0.1, 0.4, 1.0} (`s` below, characterised
by `s ≥ 0 ∧ s² = pyVariancePop`), or the default 0.1 for fewer than 4 tokens
— never exceeds 0.45; hence TTCF = clip(0.7·v + 0.3·(v·0.2)) = 0.76·v never
exceeds 0.342 and can never reach the interpretation engine's "high
chaos/distortion" band, which requires TTCF > 0.50. -/
theorem c10_ttcf_never_high_chaos (text : String) (s v t : ℝ)
    (hs0 : 0 ≤ s)
    (hs2 : s ^ 2 = ((pyVariancePop (emoValues text) : ℚ) : ℝ))
    (hv : v = if (pyTokens text).length < 4 then 0.1 else min 1 (max 0 s))
    (ht : t = min 1 (max 0 (0.7 * v + 0.3 * (v * 0.2)))) :
    v ≤ 0.45 ∧ t ≤ 0.342 ∧ ¬ (0.5 < t) := by
  have hvar : pyVariancePop (emoValues text) ≤ 0.2025 :=
    pyVariancePop_le _ (emoValues_range text)
  have hvarR : ((pyVariancePop (emoValues text) : ℚ) : ℝ) ≤ 0.2025 := by
    rw [show (0.2025 : ℝ) = ((0.2025 : ℚ) : ℝ) from by norm_num]
    exact Rat.cast_le.mpr hvar
  have hs45 : s ≤ 0.45 := by nlinarith
  have hv45 : v ≤ 0.45 := by
    rw [hv]
    split_ifs
    · norm_num
    · exact le_trans (min_le_right _ _) (max_le (by norm_num) hs45)
  have ht342 : t ≤ 0.342 := by
    rw [ht]
    exact le_trans (min_le_right _ _) (max_le (by norm_num) (by nlinarith))
  exact ⟨hv45, ht342, by linarith⟩

/-- Witness for C10 at the empty string (std 0, volatility default 0.1,
TTCF 0.076). -/
theorem c10_ttcf_never_high_chaos_witness :
    (0.1 : ℝ) ≤ 0.45 ∧ (0.076 : ℝ) ≤ 0.342 ∧ ¬ ((0.5 : ℝ) < 0.076) := by
  have hvar0 : pyVariancePop (emoValues "") = 0 := by
    norm_num [pyVariancePop, pyMean, emoValues,
      show pyTokens "" = [] from by decide]
  refine c10_ttcf_never_high_chaos "" 0 0.1 0.076 le_rfl ?_ ?_ ?_
  · rw [hvar0]
    norm_num
  · rw [if_pos (show (pyTokens "").length < 4 from by decide)]
  · have he : (0.7 * 0.1 + 0.3 * (0.1 * 0.2) : ℝ) = 0.076 := by norm_num
    rw [he, max_eq_right (by norm_num), min_eq_right (by norm_num)]

/-! ## Claim C5 -/

/-- Counterexample to claim C5: on the empty string in TEXT mode the
pipeline does not run to completion — the guard
`if not text or len(text.strip()) < 10` fires and the pipeline returns the
error-only dict, not a structurally complete report. -/
theorem c5_counterexample :
    run_rippletruth_pipeline trivialKernels "" "TEXT" =
      .error "No usable text extracted from input. URL may be invalid or article blocked." := by
  rfl

/-- Claim C5 as amended: the pipeline is total only above the length guard —
for every TEXT-mode input whose stripped length is at least 10 (for any
external kernels), all six stages run and the full bundle (narrative,
intention metrics, traceback, narrative engine, fact stack, interpretation)
is returned; the empty string and any input of stripped length below 10
instead yield the error-only value (still without raising). -/
theorem c5_amended_pipeline_total (ext : ExternalKernels) (input : String)
    (h : 10 ≤ (trimL input.data).length) :
    run_rippletruth_pipeline ext input "TEXT" =
      .report ⟨analyze_narrative input, run_intention_math ext input,
        run_traceback ext input (analyze_narrative input)
          (some (run_intention_math ext input)),
        narrative_engine_analyze ext input, fact_stack_analyze input,
        generate_interpretation ext (analyze_narrative input)
          (run_intention_math ext input)
          (run_traceback ext input (analyze_narrative input)
            (some (run_intention_math ext input)))
          (narrative_engine_analyze ext input),
        input, "TEXT"⟩ := by
  have hne : ¬(input = "" ∨ (trimL input.data).length < 10) := by
    rintro (rfl | hlt)
    · simp [trimL] at h
    · omega
  simp only [run_rippletruth_pipeline, load_input]
  rw [if_neg (show ¬ ("TEXT" = "URL") from by decide), if_neg hne]

/-- Witness for the amended C5 at a concrete 10-character input. -/
theorem c5_amended_pipeline_total_witness :
    run_rippletruth_pipeline trivialKernels "0123456789" "TEXT" =
      .report ⟨analyze_narrative "0123456789",
        run_intention_math trivialKernels "0123456789",
        run_traceback trivialKernels "0123456789" (analyze_narrative "0123456789")
          (some (run_intention_math trivialKernels "0123456789")),
        narrative_engine_analyze trivialKernels "0123456789",
        fact_stack_analyze "0123456789",
        generate_interpretation trivialKernels (analyze_narrative "0123456789")
          (run_intention_math trivialKernels "0123456789")
          (run_traceback trivialKernels "0123456789"
            (analyze_narrative "0123456789")
            (some (run_intention_math trivialKernels "0123456789")))
          (narrative_engine_analyze trivialKernels "0123456789"),
        "0123456789", "TEXT"⟩ :=
  c5_amended_pipeline_total trivialKernels "0123456789" (by decide)

/-! ## Claim C6 -/

/-- Counterexample to claim C6: when URL resolution yields the failure
sentinel "[No extractable article text found]" (`url_engine.fetch_url_text`,
line 28), the pipeline does not short-circuit: the sentinel passes the
10-character length guard — the only guard the pipeline has — and every
scoring stage is applied to the sentinel string (the report's intention
field is `run_intention_math` evaluated on the sentinel, and so on). -/
theorem c6_counterexample :
    run_rippletruth_pipeline sentinelKernels "http://example.com" "URL" =
      .report ⟨analyze_narrative "[No extractable article text found]",
        run_intention_math sentinelKernels "[No extractable article text found]",
        run_traceback sentinelKernels "[No extractable article text found]"
          (analyze_narrative "[No extractable article text found]")
          (some (run_intention_math sentinelKernels
            "[No extractable article text found]")),
        narrative_engine_analyze sentinelKernels
          "[No extractable article text found]",
        fact_stack_analyze "[No extractable article text found]",
        generate_interpretation sentinelKernels
          (analyze_narrative "[No extractable article text found]")
          (run_intention_math sentinelKernels
            "[No extractable article text found]")
          (run_traceback sentinelKernels "[No extractable article text found]"
            (analyze_narrative "[No extractable article text found]")
            (some (run_intention_math sentinelKernels
              "[No extractable article text found]")))
          (narrative_engine_analyze sentinelKernels
            "[No extractable article text found]"),
        "[No extractable article text found]", "URL"⟩ := by
  simp only [run_rippletruth_pipeline, load_input, sentinelKernels, if_true]
  rw [if_neg (show ¬("[No extractable article text found]" = ""
    ∨ (trimL "[No extractable article text found]".data).length < 10) from by decide)]

/-- Claim C6 as amended: the pipeline performs no sentinel-prefix detection
at all — its only guard is the 10-character stripped-length check, so any
resolved URL text of stripped length at least 10, including every failure
sentinel the URL engine can produce, is passed to all scoring stages
(sentinel detection exists only in the UI layer, `app.py`, outside the
pipeline). -/
theorem c6_amended_no_sentinel_detection (ext : ExternalKernels) (url : String)
    (h : 10 ≤ (trimL (ext.fetch url).data).length) :
    run_rippletruth_pipeline ext url "URL" =
      .report ⟨analyze_narrative (ext.fetch url),
        run_intention_math ext (ext.fetch url),
        run_traceback ext (ext.fetch url) (analyze_narrative (ext.fetch url))
          (some (run_intention_math ext (ext.fetch url))),
        narrative_engine_analyze ext (ext.fetch url),
        fact_stack_analyze (ext.fetch url),
        generate_interpretation ext (analyze_narrative (ext.fetch url))
          (run_intention_math ext (ext.fetch url))
          (run_traceback ext (ext.fetch url)
            (analyze_narrative (ext.fetch url))
            (some (run_intention_math ext (ext.fetch url))))
          (narrative_engine_analyze ext (ext.fetch url)),
        ext.fetch url, "URL"⟩ := by
  have hne : ¬(ext.fetch url = "" ∨ (trimL (ext.fetch url).data).length < 10) := by
    rintro (hemp | hlt)
    · rw [hemp] at h
      simp [trimL] at h
    · omega
  simp only [run_rippletruth_pipeline, load_input, if_true]
  rw [if_neg hne]

/-- Witness for the amended C6: the failed-fetch kernels at a concrete URL. -/
theorem c6_amended_no_sentinel_detection_witness :
    run_rippletruth_pipeline sentinelKernels "http://x.invalid" "URL" =
      .report ⟨analyze_narrative (sentinelKernels.fetch "http://x.invalid"),
        run_intention_math sentinelKernels (sentinelKernels.fetch "http://x.invalid"),
        run_traceback sentinelKernels (sentinelKernels.fetch "http://x.invalid")
          (analyze_narrative (sentinelKernels.fetch "http://x.invalid"))
          (some (run_intention_math sentinelKernels
            (sentinelKernels.fetch "http://x.invalid"))),
        narrative_engine_analyze sentinelKernels
          (sentinelKernels.fetch "http://x.invalid"),
        fact_stack_analyze (sentinelKernels.fetch "http://x.invalid"),
        generate_interpretation sentinelKernels
          (analyze_narrative (sentinelKernels.fetch "http://x.invalid"))
          (run_intention_math sentinelKernels
            (sentinelKernels.fetch "http://x.invalid"))
          (run_traceback sentinelKernels (sentinelKernels.fetch "http://x.invalid")
            (analyze_narrative (sentinelKernels.fetch "http://x.invalid"))
            (some (run_intention_math sentinelKernels
              (sentinelKernels.fetch "http://x.invalid"))))
          (narrative_engine_analyze sentinelKernels
            (sentinelKernels.fetch "http://x.invalid")),
        sentinelKernels.fetch "http://x.invalid", "URL"⟩ :=
  c6_amended_no_sentinel_detection sentinelKernels "http://x.invalid" (by decide)
